import Mathlib

/-!
Verification of the servicenow-monitor aggregation pipeline.

Shallow embedding of the pipeline in `src/`:
  - `src/fetchers/sec_edgar.py`      (class SECEdgarFetcher)
  - `src/fetchers/press_releases.py` (class PressReleaseFetcher)
  - `src/fetchers/news_articles.py`  (class NewsArticleFetcher)
  - `src/summarizers/claude_summarizer.py` (class ClaudeSummarizer)
  - `src/main.py`                    (class ServiceNowMonitor, function main)

Modelling conventions:
  - `datetime` values are integers (days); `timedelta(days=d)` is the integer `d`;
    `datetime.now()` is a parameter `now`.  A `cutoff = datetime.now() -
    timedelta(days=days_back)` becomes `now - days_back`.
  - A Python exception that escapes a function is `Except.error` of a `PyErr`;
    functions that cannot raise are total.
  - External collaborators (HTTP transport, RSS parsing, the Claude completion
    call) are inputs: a fetched HTTP/JSON body is an `Option` structure (`none`
    when the request raised and was caught), the completion call is an
    `Except String String` (error = exception message).
  - Python string operations are re-implemented over `List Char` so that all
    definitions evaluate inside the kernel.
-/

deriving instance DecidableEq for Except

/-- Python `str.upper` (inputs here are ASCII, where `Char.toUpper` agrees). -/
def pyUpper (s : String) : String := String.mk (s.data.map Char.toUpper)

/-- Python `str.lower` (inputs here are ASCII, where `Char.toLower` agrees). -/
def pyLower (s : String) : String := String.mk (s.data.map Char.toLower)

/-- Python `s.replace(c, rep)` for a one-character pattern `c` (the only shape
of `str.replace` the source uses: `replace("-", "_")` and `replace("-", "")`). -/
def replaceChar (s : String) (c : Char) (rep : String) : String :=
  String.mk (s.data.foldr (fun ch acc => if ch = c then rep.data ++ acc else ch :: acc) [])

/-- List prefix test, spelled out so it reduces in the kernel. -/
def isPrefixList : List Char → List Char → Bool
  | [], _ => true
  | _ :: _, [] => false
  | a :: as, b :: bs => a == b && isPrefixList as bs

/-- List infix (contiguous substring) test. -/
def isInfixList (pat : List Char) : List Char → Bool
  | [] => pat.isEmpty
  | c :: rest => isPrefixList pat (c :: rest) || isInfixList pat rest

/-- Python `pat in s` (substring containment). -/
def containsSubstr (s pat : String) : Bool := isInfixList pat.data s.data

/-- Python `int(s)` on a non-negative decimal string: `some` of the value, or
`none` when `int()` would raise `ValueError`. -/
def pyInt (s : String) : Option Nat :=
  if s.data.isEmpty then none
  else if s.data.all Char.isDigit then
    some (s.data.foldl (fun n c => n * 10 + (c.toNat - 48)) 0)
  else none

/-- Python `str.strip()`: drop leading and trailing whitespace. -/
def pyStrip (s : String) : String :=
  String.mk (((s.data.dropWhile Char.isWhitespace).reverse.dropWhile Char.isWhitespace).reverse)

/-- Left-pad with `'0'` to width `w`: Python `str.zfill(w)` on digit strings. -/
def zfill (w : Nat) (s : String) : String :=
  String.mk (List.replicate (w - s.data.length) '0' ++ s.data)

/-- The Python exceptions the embedded code can raise. -/
inductive PyErr
  | valueError (msg : String)
  | indexError
  | attributeError (msg : String)
deriving Repr, DecidableEq

/-- A date-valued string as consumed by `datetime.strptime(s, "%Y-%m-%d")`:
either a well-formed date (abstracted to its day number) or an unparseable
raw string.  The parsing library itself is an out-of-scope collaborator; only
parse success/failure and the parsed value matter to the pipeline. -/
inductive DateStr
  | valid (day : Int)
  | invalid (raw : String)
deriving Repr, DecidableEq

/-- `datetime.strptime(s, "%Y-%m-%d")`: the parsed date, or a raised
`ValueError` (modelled as `Except.error`) on an unparseable string
(`src/fetchers/sec_edgar.py` line 110). -/
def strptime : DateStr → Except PyErr Int
  | .valid day => .ok day
  | .invalid raw => .error (.valueError raw)

/-- The parallel arrays of `data["filings"]["recent"]` in the SEC submissions
JSON (`src/fetchers/sec_edgar.py` lines 92-99); a missing key yields `[]`. -/
structure Submissions where
  form : List String := []
  filingDate : List DateStr := []
  accessionNumber : List String := []
  primaryDocument : List String := []
  primaryDocDescription : List String := []
deriving Repr, DecidableEq

/-- One normalized SEC filing record (`filing_info`, `src/fetchers/sec_edgar.py`
lines 121-129).  `summary`/`content_fetched` are the optional enrichment keys
added by `main.py`; `summaryWrites` is a ghost counter of how many times the
`summary` key has been assigned, used to state the write-at-most-once claim. -/
structure Filing where
  form_type : String
  filing_date : DateStr
  accession_number : String
  description : String
  filing_url : String
  company : String
  cik : String
  summary : Option String := none
  content_fetched : Option Bool := none
  summaryWrites : Nat := 0
deriving Repr, DecidableEq

/-- `SECEdgarFetcher._format_cik`: strip, drop a `"CIK"` prefix occurrence,
zero-fill to 10 digits (`src/fetchers/sec_edgar.py` line 43; the source removes
every occurrence of the three-character substring `"CIK"`, here modelled for
the occurring inputs, which contain `"CIK"` at most as a literal prefix). -/
def formatCik (cik : String) : String :=
  zfill 10 (if isPrefixList "CIK".data (pyStrip cik).data
            then String.mk ((pyStrip cik).data.drop 3) else pyStrip cik)

/-- The loop of `SECEdgarFetcher.get_recent_filings`
(`src/fetchers/sec_edgar.py` lines 101-131), iterating `i` over
`range(len(form_types))`.  Faithful points: `filing_dates[i]` is read before
the form-type filter; `datetime.strptime` is not guarded, so an unparseable
date raises; `accession_numbers[i]` and `primary_documents[i]` are unguarded
indexings, so a missing element raises `IndexError`; only `descriptions[i]`
is guarded (`if i < len(descriptions) else ""`). -/
def getRecentFilingsAux (filingTypes : List String) (cutoff : Int)
    (cikFormatted companyName : String) (sub : Submissions) :
    Nat → List String → Except PyErr (List Filing)
  | _, [] => .ok []
  | i, form_type :: rest =>
    match sub.filingDate[i]? with
    | none => .error .indexError
    | some filing_date_str =>
      if form_type ∈ filingTypes then
        match strptime filing_date_str with
        | .error e => .error e
        | .ok filing_date =>
          if filing_date < cutoff then
            getRecentFilingsAux filingTypes cutoff cikFormatted companyName sub (i+1) rest
          else
            match sub.accessionNumber[i]?, sub.primaryDocument[i]? with
            | some accessionRaw, some primary_doc =>
              match pyInt cikFormatted with
              | none => .error (.valueError cikFormatted)
              | some cikNum =>
                let accession := replaceChar accessionRaw '-' ""
                let filing_url := "https://www.sec.gov/Archives/edgar/data/" ++
                  toString cikNum ++ "/" ++ accession ++ "/" ++ primary_doc
                let filing : Filing :=
                  { form_type := form_type, filing_date := filing_date_str,
                    accession_number := accessionRaw,
                    description := (sub.primaryDocDescription[i]?).getD "",
                    filing_url := filing_url, company := companyName,
                    cik := cikFormatted }
                match getRecentFilingsAux filingTypes cutoff cikFormatted companyName sub (i+1) rest with
                | .error e => .error e
                | .ok fs => .ok (filing :: fs)
            | _, _ => .error .indexError
      else
        getRecentFilingsAux filingTypes cutoff cikFormatted companyName sub (i+1) rest

/-- `SECEdgarFetcher.get_recent_filings` (`src/fetchers/sec_edgar.py` lines
66-134).  `subOpt = none` models a failed `_make_request` (caught inside, the
method then returns `[]`); `cutoff` is `datetime.now() - timedelta(days=days_back)`. -/
def get_recent_filings (subOpt : Option Submissions) (filingTypes : List String)
    (cutoff : Int) (cikFormatted companyName : String) : Except PyErr (List Filing) :=
  match subOpt with
  | none => .ok []
  | some sub => getRecentFilingsAux filingTypes cutoff cikFormatted companyName sub 0 sub.form

/-- The configuration state of `ServiceNowMonitor` that the pipeline reads
(`src/main.py`): source enable flags, company identity, filing types and
per-source summarize counts, with the defaults the `config.get` calls supply. -/
structure MonitorConfig where
  secFilingsEnabled : Bool := true
  pressReleasesEnabled : Bool := true
  newsEnabled : Bool := false
  cik : String := "0001373715"
  companyName : String := "ServiceNow"
  filingTypes : List String := ["10-K", "10-Q"]
  summarizeFilingsCount : Nat := 3
  summarizeReleasesCount : Nat := 5
  summarizeArticlesCount : Nat := 5
  newsApiKey : Option String := none
deriving Repr

/-- `ServiceNowMonitor.fetch_sec_filings` (`src/main.py` lines 122-176).
When the summarizer is configured and at least one filing was fetched, the
enrichment loop's first iteration evaluates
`fetcher.fetch_filing_content(...)` — but `SECEdgarFetcher` defines no such
method, so the call raises `AttributeError` (uncaught here and in `run`). -/
def fetch_sec_filings (cfg : MonitorConfig) (summarizerOn : Bool)
    (subOpt : Option Submissions) (cutoff : Int) : Except PyErr (List Filing) :=
  if cfg.secFilingsEnabled then
    match get_recent_filings subOpt cfg.filingTypes cutoff (formatCik cfg.cik) cfg.companyName with
    | .error e => .error e
    | .ok filings =>
      if summarizerOn && !filings.isEmpty && cfg.summarizeFilingsCount != 0 then
        .error (.attributeError "SECEdgarFetcher object has no attribute fetch_filing_content")
      else .ok filings
  else .ok []

/-- One Business Wire RSS feed entry as exposed by `feedparser`
(`src/fetchers/press_releases.py` lines 63-80): `published_parsed` is `none`
when `datetime(*entry.published_parsed[:6])` raises (missing or malformed
struct-time), which the source catches per-entry. -/
structure FeedEntry where
  title : String := ""
  published_parsed : Option Int := none
  link : String := ""
  summary : String := ""
deriving Repr, DecidableEq

/-- One normalized press-release record (`press_release`,
`src/fetchers/press_releases.py` lines 76-90).  `date` abstracts the
`pub_date.strftime("%Y-%m-%d")` string to its day number (the ISO format makes
lexicographic string order agree with day order, so the later sort-by-`date`
is unchanged by this abstraction).  `summaryWrites` is a ghost counter of
assignments to the `summary` key: the dict literal at creation sets it, so a
fresh record has `summaryWrites = 1`. -/
structure Release where
  title : String
  date : Int
  url : String
  summary : String
  source : String
  company : String
  category : String
  content_fetched : Option Bool := none
  summaryWrites : Nat := 1
deriving Repr, DecidableEq

/-- The keyword list of the earnings classifier
(`src/fetchers/press_releases.py` line 87). -/
def earningsKeywords : List String :=
  ["earnings", "financial results", "quarter", "q1", "q2", "q3", "q4"]

/-- `PressReleaseFetcher.fetch_from_businesswire`
(`src/fetchers/press_releases.py` lines 40-99): per-entry date parse failures
are skipped (`except: continue`), entries older than the cutoff are skipped,
the rest are normalized in feed order and classified by title keywords. -/
def fetch_from_businesswire (companyName : String) (cutoff : Int) :
    List FeedEntry → List Release
  | [] => []
  | entry :: rest =>
    match entry.published_parsed with
    | none => fetch_from_businesswire companyName cutoff rest
    | some pub_date =>
      if pub_date < cutoff then fetch_from_businesswire companyName cutoff rest
      else
        let category :=
          if earningsKeywords.any (fun kw => containsSubstr (pyLower entry.title) kw)
          then "earnings" else "general"
        { title := entry.title, date := pub_date, url := entry.link,
          summary := entry.summary, source := "Business Wire",
          company := companyName, category := category }
          :: fetch_from_businesswire companyName cutoff rest

/-- The dedup loop of `PressReleaseFetcher.get_recent_press_releases`
(`src/fetchers/press_releases.py` lines 188-194): keep the first occurrence
of each title, tracked by the `seen_titles` set. -/
def dedupByTitleAux (seen : List String) : List Release → List Release
  | [] => []
  | r :: rs =>
    if r.title ∈ seen then dedupByTitleAux seen rs
    else r :: dedupByTitleAux (r.title :: seen) rs

/-- Dedup with an initially empty `seen_titles` set. -/
def dedupByTitle (rs : List Release) : List Release := dedupByTitleAux [] rs

instance : DecidableRel (fun a b : Release => b.date ≤ a.date) :=
  fun a b => Int.decLe b.date a.date

instance : IsTotal Release (fun a b => b.date ≤ a.date) :=
  ⟨fun a b => le_total b.date a.date⟩

instance : IsTrans Release (fun a b => b.date ≤ a.date) :=
  ⟨fun _ _ _ hab hbc => le_trans hbc hab⟩

/-- `unique_releases.sort(key=lambda x: x["date"], reverse=True)`
(`src/fetchers/press_releases.py` line 197): a stable sort, descending by
`date`; CPython's stable sort and this insertion sort produce the same list
for this relation. -/
def sortByDateDesc (rs : List Release) : List Release :=
  rs.insertionSort (fun a b => b.date ≤ a.date)

/-- `PressReleaseFetcher.get_recent_press_releases`
(`src/fetchers/press_releases.py` lines 169-200): Business Wire is the only
merged source (the IR source is commented out), then dedup by title, then
sort by date descending. -/
def get_recent_press_releases (companyName : String) (feed : List FeedEntry)
    (cutoff : Int) : List Release :=
  sortByDateDesc (dedupByTitle (fetch_from_businesswire companyName cutoff feed))

/-- `ServiceNowMonitor.fetch_press_releases` (`src/main.py` lines 178-227).
As with filings, when the summarizer is configured and at least one release
was fetched, the first enrichment iteration evaluates
`fetcher.fetch_press_release_content(...)`, a method `PressReleaseFetcher`
does not define, raising `AttributeError` before any summary is (re)assigned. -/
def fetch_press_releases (cfg : MonitorConfig) (summarizerOn : Bool)
    (feed : List FeedEntry) (cutoff : Int) : Except PyErr (List Release) :=
  if cfg.pressReleasesEnabled then
    let releases := get_recent_press_releases cfg.companyName feed cutoff
    if summarizerOn && !releases.isEmpty && cfg.summarizeReleasesCount != 0 then
      .error (.attributeError "PressReleaseFetcher object has no attribute fetch_press_release_content")
    else .ok releases
  else .ok []

/-- One raw NewsAPI article object (`src/fetchers/news_articles.py` lines
96-107), with the `.get(..., default)` defaults of the source. -/
structure RawArticle where
  title : String := ""
  description : String := ""
  content : String := ""
  url : String := ""
  sourceName : String := "Unknown"
  author : String := "Unknown"
  publishedAt : String := ""
  urlToImage : String := ""
deriving Repr, DecidableEq

/-- The parsed NewsAPI JSON body (`src/fetchers/news_articles.py` lines
86-92): a `status` field and an `articles` array. -/
structure NewsResponse where
  status : String := "ok"
  articles : List RawArticle := []
deriving Repr, DecidableEq

/-- One normalized news-article record (`formatted`,
`src/fetchers/news_articles.py` lines 97-117).  `summary`/`content_fetched`
are the optional enrichment keys added by `main.py`; `summaryWrites` is the
ghost counter of assignments to the `summary` key (no `summary` key exists at
creation, so it starts at 0). -/
structure Article where
  title : String
  description : String
  content : String
  url : String
  source : String
  author : String
  published_at : String
  url_to_image : String
  company : String
  date : String
  summary : Option String := none
  content_fetched : Option Bool := none
  summaryWrites : Nat := 0
deriving Repr, DecidableEq

/-- The per-article normalization of `NewsArticleFetcher.get_recent_articles`
(`src/fetchers/news_articles.py` lines 96-117).  Date derivation: on a
successful `datetime.fromisoformat`, `strftime("%Y-%m-%d")` returns the first
10 characters of the ISO timestamp; the `except` fallback is
`published_at[:10] if published_at else ""` — both branches yield the first
10 characters of a non-empty raw timestamp, modelled jointly. -/
def formatArticle (companyName : String) (a : RawArticle) : Article :=
  { title := a.title, description := a.description, content := a.content,
    url := a.url, source := a.sourceName, author := a.author,
    published_at := a.publishedAt, url_to_image := a.urlToImage,
    company := companyName,
    date := if a.publishedAt.data.isEmpty then ""
            else String.mk (a.publishedAt.data.take 10) }

/-- `NewsArticleFetcher.get_recent_articles` (`src/fetchers/news_articles.py`
lines 36-124): empty without an API key; empty when the request raised
(`respOpt = none`, caught) or the response `status` is not `"ok"`;
otherwise each article is normalized in order. -/
def get_recent_articles (apiKey : Option String) (respOpt : Option NewsResponse)
    (companyName : String) : List Article :=
  match apiKey with
  | none => []
  | some _ =>
    match respOpt with
    | none => []
    | some data =>
      if data.status != "ok" then []
      else data.articles.map (formatArticle companyName)

/-- What one `ClaudeSummarizer.summarize` call did: the content portion of the
prompt sent to the completion collaborator, the key of the `PROMPTS` template
selected, and the returned summary string. -/
structure SummarizeResult where
  sentContent : String
  templateKey : String
  summary : String
deriving Repr, DecidableEq

/-- The truncation marker appended by `ClaudeSummarizer.summarize`
(`src/summarizers/claude_summarizer.py` line 163). -/
def truncMarker : String := "\n\n[Content truncated...]"

/-- The truncation step of `ClaudeSummarizer.summarize`
(`src/summarizers/claude_summarizer.py` lines 161-163):
`content[:50000] + marker` when `len(content) > 50000`, else unchanged. -/
def truncateContent (content : String) : String :=
  if content.length > 50000 then String.mk (content.data.take 50000) ++ truncMarker
  else content

/-- The normalization in `ClaudeSummarizer._get_prompt_template`
(`src/summarizers/claude_summarizer.py` line 127):
`content_type.upper().replace("-", "_")`. -/
def normalizeContentType (content_type : String) : String :=
  replaceChar (pyUpper content_type) '-' "_"

/-- `ClaudeSummarizer._get_prompt_template`
(`src/summarizers/claude_summarizer.py` lines 125-141), modelled by the key of
the selected `PROMPTS` entry (the templates themselves are fixed strings). -/
def get_prompt_template (content_type : String) : String :=
  let ct := normalizeContentType content_type
  if ct ∈ ["10-K", "10_K"] then "10-K"
  else if ct ∈ ["10-Q", "10_Q"] then "10-Q"
  else if ct ∈ ["8-K", "8_K"] then "8-K"
  else if containsSubstr ct "EARNING" then "earnings"
  else if containsSubstr ct "PRESS" || containsSubstr ct "RELEASE" then "press_release"
  else "general"

/-- The content type `ServiceNowMonitor.fetch_press_releases` passes to the
summarizer (`src/main.py` line 212): `"earnings" if release["category"] ==
"earnings" else "press_release"`. -/
def releaseContentType (release : Release) : String :=
  if release.category = "earnings" then "earnings" else "press_release"

/-- `ClaudeSummarizer.summarize` (`src/summarizers/claude_summarizer.py` lines
143-186).  `completion` is the outcome of the `client.messages.create` call
and the `response.content[0].text` access (error = message of the raised
exception): the whole `try` block is folded into it.  The `except Exception`
branch returns `f"Error generating summary: {str(e)}"` instead of raising,
so the function is total. -/
def summarize (completion : Except String String) (content : String)
    (content_type : String) (company_name : String) : SummarizeResult :=
  let sent := truncateContent content
  let templateKey := get_prompt_template content_type
  match completion with
  | .ok text => { sentContent := sent, templateKey := templateKey, summary := text }
  | .error e => { sentContent := sent, templateKey := templateKey,
                  summary := "Error generating summary: " ++ e }

/-- The body of one iteration of the article-enrichment loop
(`src/main.py` lines 277-294): build `content` from description and raw
content, summarize it when non-blank (content type `"general"`), otherwise
fall back to the description; either way the `summary` key is assigned once. -/
def enrichOne (completion : Except String String) (a : Article) : Article :=
  let content := a.description ++ "\n\n" ++ a.content
  if (pyStrip content).data.isEmpty then
    { a with summary := some a.description, content_fetched := some false,
             summaryWrites := a.summaryWrites + 1 }
  else
    { a with summary := some (summarize completion content "general" a.company).summary,
             content_fetched := some true, summaryWrites := a.summaryWrites + 1 }

/-- The article-enrichment loop `for i, article in
enumerate(articles[:summarize_count])` (`src/main.py` line 277), with `j` the
index of the first element of the remaining list; `oracle i` is the outcome
of the completion call made for article `i`. -/
def enrichArticlesAux (oracle : Nat → Except String String) (count : Nat) :
    Nat → List Article → List Article
  | _, [] => []
  | j, a :: rest =>
    if j < count then enrichOne (oracle j) a :: enrichArticlesAux oracle count (j+1) rest
    else a :: enrichArticlesAux oracle count (j+1) rest

/-- Enrichment of the first `count` articles, the rest untouched. -/
def enrichArticles (oracle : Nat → Except String String) (count : Nat)
    (articles : List Article) : List Article :=
  enrichArticlesAux oracle count 0 articles

/-- `ServiceNowMonitor.fetch_news_articles` (`src/main.py` lines 229-297):
disabled by default; empty without an API key; otherwise fetch, then enrich
the top `summarize_articles_count` articles when the summarizer is on.  Every
path is total: per-article summarization failures become error strings. -/
def fetch_news_articles (cfg : MonitorConfig) (summarizerOn : Bool)
    (oracle : Nat → Except String String) (respOpt : Option NewsResponse) :
    List Article :=
  if cfg.newsEnabled then
    match cfg.newsApiKey with
    | none => []
    | some _ =>
      let articles := get_recent_articles cfg.newsApiKey respOpt cfg.companyName
      if summarizerOn && !articles.isEmpty then
        enrichArticles oracle cfg.summarizeArticlesCount articles
      else articles
  else []

/-- Python `x or default` on an optional day count (`src/main.py` lines
315-317): `None` and `0` are falsy and give the default. -/
def pyOrDefault (x : Option Int) (d : Int) : Int :=
  match x with
  | none => d
  | some v => if v = 0 then d else v

/-- The day-count resolution at the top of `ServiceNowMonitor.run`
(`src/main.py` lines 310-317): a provided universal `days_back` overrides the
three per-source counts, then falsy values fall back to the per-source
defaults 90 / 60 / 30. -/
def resolveDays (days_back filings_days releases_days articles_days : Option Int) :
    Int × Int × Int :=
  let values :=
    match days_back with
    | some d => (some d, some d, some d)
    | none => (filings_days, releases_days, articles_days)
  (pyOrDefault values.1 90, pyOrDefault values.2.1 60, pyOrDefault values.2.2 30)

/-- `period_map` of `main` (`src/main.py` lines 463-468); `argparse` restricts
the flag to the four choices, other strings are unreachable. -/
def periodMap (p : String) : Option Int :=
  if p = "week" then some 7
  else if p = "month" then some 30
  else if p = "quarter" then some 90
  else if p = "year" then some 365
  else none

/-- The `days_back` resolution in `main` (`src/main.py` lines 470-474):
`--period` wins when present; otherwise `--days` is used only when truthy
(so `--days 0` leaves `days_back = None`). -/
def cliDaysBack (period : Option String) (days : Option Int) : Option Int :=
  match period with
  | some p => periodMap p
  | none =>
    match days with
    | none => none
    | some d => if d = 0 then none else some d

/-- The world of external-collaborator outcomes one `run` observes. -/
structure World where
  now : Int := 0
  submissions : Option Submissions := none
  feed : List FeedEntry := []
  news : Option NewsResponse := none
  oracle : Nat → Except String String := fun _ => .ok ""

/-- `ServiceNowMonitor.results` as assembled by a completed run
(`src/main.py` lines 49-54, 175, 226, 296). -/
structure RunResult where
  timestamp : Int
  sec_filings : List Filing
  press_releases : List Release
  news_articles : List Article
deriving Repr, DecidableEq

/-- `ServiceNowMonitor.run` (`src/main.py` lines 299-341): resolve the day
counts, then fetch the three sources in sequence.  There is no `try/except`
around any source, so an exception in one fetch-and-enrich phase propagates
and aborts the remainder of the run. -/
def run (cfg : MonitorConfig) (summarizerOn : Bool) (w : World)
    (days_back filings_days releases_days articles_days : Option Int) :
    Except PyErr RunResult :=
  let days := resolveDays days_back filings_days releases_days articles_days
  match fetch_sec_filings cfg summarizerOn w.submissions (w.now - days.1) with
  | .error e => .error e
  | .ok filings =>
    match fetch_press_releases cfg summarizerOn w.feed (w.now - days.2.1) with
    | .error e => .error e
    | .ok releases =>
      let articles := fetch_news_articles cfg summarizerOn w.oracle w.news
      .ok { timestamp := w.now, sec_filings := filings,
            press_releases := releases, news_articles := articles }

/-- Number of records in `rs` carrying title `t`. -/
def countTitle (t : String) (rs : List Release) : Nat :=
  rs.countP (fun r => r.title == t)

/-- A submissions response whose single requested filing has an unparseable
`filingDate` string. -/
def subC1 : Submissions :=
  { form := ["10-K"], filingDate := [.invalid "bad-date"],
    accessionNumber := ["0001373715-25-000001"], primaryDocument := ["snow-10k.htm"] }

/-- Three 10-K filings dated `T-5`, `T-40`, `T-95` for `T = 1000`
(end-to-end scenario 1 of the spec, window 90). -/
def subC2 : Submissions :=
  { form := ["10-K", "10-K", "10-K"],
    filingDate := [.valid 995, .valid 960, .valid 905],
    accessionNumber := ["0001373715-25-000001", "0001373715-25-000002", "0001373715-25-000003"],
    primaryDocument := ["a.htm", "b.htm", "c.htm"] }

/-- A single filing dated exactly at the cutoff `1000 - 90 = 910`. -/
def subC2boundary : Submissions :=
  { form := ["8-K"], filingDate := [.valid 910],
    accessionNumber := ["0001373715-25-000004"], primaryDocument := ["d.htm"] }

/-- The first filing record produced from `subC2` (date `995`). -/
def filingC2 : Filing :=
  { form_type := "10-K", filing_date := .valid 995,
    accession_number := "0001373715-25-000001", description := "",
    filing_url := "https://www.sec.gov/Archives/edgar/data/1373715/000137371525000001/a.htm",
    company := "ServiceNow", cik := "0001373715" }

/-- The full filing list produced from `subC2` with window 90 at `now = 1000`. -/
def filingsC2 : List Filing :=
  [filingC2,
   { form_type := "10-K", filing_date := .valid 960,
     accession_number := "0001373715-25-000002", description := "",
     filing_url := "https://www.sec.gov/Archives/edgar/data/1373715/000137371525000002/b.htm",
     company := "ServiceNow", cik := "0001373715" }]

/-- A feed with two entries sharing one title (end-to-end scenario 2 shape)
plus a distinct third entry, all recent. -/
def feedC3 : List FeedEntry :=
  [{ title := "ServiceNow Announces X", published_parsed := some 995, link := "u1", summary := "s1" },
   { title := "ServiceNow Announces X", published_parsed := some 990, link := "u2", summary := "s2" },
   { title := "Something else", published_parsed := some 980, link := "u3", summary := "s3" }]

/-- The first-occurrence record for the duplicated title of `feedC3`. -/
def releaseC3 : Release :=
  { title := "ServiceNow Announces X", date := 995, url := "u1", summary := "s1",
    source := "Business Wire", company := "ServiceNow", category := "general" }

/-- A feed whose first entry has an unparseable published date and whose
second entry is well-formed and recent. -/
def feedC8 : List FeedEntry :=
  [{ title := "Bad entry", published_parsed := none, link := "u0", summary := "s0" },
   { title := "Good entry", published_parsed := some 995, link := "u1", summary := "s1" }]

/-- A submissions response mixing one malformed-date record with one valid
recent record of a requested form type. -/
def subC8mix : Submissions :=
  { form := ["8-K", "8-K"], filingDate := [.invalid "not-a-date", .valid 995],
    accessionNumber := ["0001373715-25-000001", "0001373715-25-000002"],
    primaryDocument := ["a.htm", "b.htm"] }

/-- A submissions response whose `accessionNumber` array is missing the
element for its (valid, recent, requested) filing. -/
def subC8short : Submissions :=
  { form := ["8-K"], filingDate := [.valid 995], accessionNumber := [],
    primaryDocument := ["a.htm"] }

/-- A one-entry feed used to exercise the press-release phase. -/
def feedC9 : List FeedEntry :=
  [{ title := "Quarterly results", published_parsed := some 995, link := "u1", summary := "rss text" }]

/-- The release produced from `feedC9` (title matches the `quarter` keyword). -/
def releaseC9 : Release :=
  { title := "Quarterly results", date := 995, url := "u1", summary := "rss text",
    source := "Business Wire", company := "ServiceNow", category := "earnings" }

/-- A config with the news source enabled and an API key present. -/
def cfgC9 : MonitorConfig := { newsEnabled := true, newsApiKey := some "k" }

/-- A NewsAPI response with one article. -/
def respC9 : NewsResponse :=
  { status := "ok",
    articles := [{ title := "T", description := "D", content := "C", url := "u",
                   publishedAt := "2025-07-04T00:00:00Z" }] }

/-- The article of `respC9` after normalization and enrichment with a
successful completion returning `"sum"`. -/
def articleC9 : Article :=
  { title := "T", description := "D", content := "C", url := "u",
    source := "Unknown", author := "Unknown", published_at := "2025-07-04T00:00:00Z",
    url_to_image := "", company := "ServiceNow", date := "2025-07-04",
    summary := some "sum", content_fetched := some true, summaryWrites := 1 }

lemma countTitle_nil (t : String) : countTitle t [] = 0 := rfl

lemma countTitle_cons (t : String) (r : Release) (rs : List Release) :
    countTitle t (r :: rs) = countTitle t rs + if r.title = t then 1 else 0 := by
  simp [countTitle, List.countP_cons]

lemma dedupByTitleAux_countTitle (t : String) :
    ∀ (rs : List Release) (seen : List String),
      countTitle t (dedupByTitleAux seen rs) =
        if t ∈ seen then 0 else min 1 (countTitle t rs) := by
  intro rs
  induction rs with
  | nil =>
    intro seen
    by_cases hs : t ∈ seen <;> simp [dedupByTitleAux, countTitle_nil, hs]
  | cons r rs ih =>
    intro seen
    by_cases hrs : r.title ∈ seen
    · rw [dedupByTitleAux, if_pos hrs, ih seen]
      by_cases hts : t ∈ seen
      · simp [hts]
      · have hne : r.title ≠ t := fun h => hts (h ▸ hrs)
        simp [hts, countTitle_cons, hne]
    · rw [dedupByTitleAux, if_neg hrs]
      by_cases htr : r.title = t
      · have hts : t ∉ seen := fun hh => hrs (by rw [htr]; exact hh)
        have hmem : t ∈ r.title :: seen := List.mem_cons.mpr (Or.inl htr.symm)
        rw [countTitle_cons, if_pos htr, ih (r.title :: seen), if_pos hmem,
          if_neg hts, countTitle_cons, if_pos htr]
        rcases Nat.eq_zero_or_pos (countTitle t rs) with hz | hp
        · simp [hz]
        · omega
      · have hne : ¬ t = r.title := fun hh => htr hh.symm
        rw [countTitle_cons, if_neg htr, ih (r.title :: seen), countTitle_cons, if_neg htr]
        by_cases hts : t ∈ seen
        · have : t ∈ r.title :: seen := List.mem_cons.mpr (Or.inr hts)
          simp [hts, this]
        · have : t ∉ r.title :: seen := by
            intro hh
            rcases List.mem_cons.mp hh with hh | hh
            · exact hne hh
            · exact hts hh
          simp [hts, this]

lemma dedupByTitleAux_find_mem (t : String) (r : Release) :
    ∀ (rs : List Release) (seen : List String), t ∉ seen →
      rs.find? (fun x => x.title == t) = some r →
      r ∈ dedupByTitleAux seen rs := by
  intro rs
  induction rs with
  | nil => intro seen _ h; simp [List.find?] at h
  | cons x rs ih =>
    intro seen hseen h
    by_cases hxt : x.title = t
    · rw [List.find?_cons_of_pos _ (by simp [hxt])] at h
      injection h with h
      subst h
      rw [dedupByTitleAux, if_neg (hxt ▸ hseen)]
      exact List.mem_cons_self _ _
    · rw [List.find?_cons_of_neg _ (by simp [hxt])] at h
      rw [dedupByTitleAux]
      by_cases hxs : x.title ∈ seen
      · rw [if_pos hxs]
        exact ih seen hseen h
      · rw [if_neg hxs]
        refine List.mem_cons_of_mem _ (ih (x.title :: seen) ?_ h)
        intro hh
        rcases List.mem_cons.mp hh with hh | hh
        · exact hxt hh.symm
        · exact hseen hh

lemma dedupByTitleAux_subset (r : Release) :
    ∀ (rs : List Release) (seen : List String),
      r ∈ dedupByTitleAux seen rs → r ∈ rs := by
  intro rs
  induction rs with
  | nil => intro seen h; simp [dedupByTitleAux] at h
  | cons x rs ih =>
    intro seen h
    rw [dedupByTitleAux] at h
    by_cases hxs : x.title ∈ seen
    · rw [if_pos hxs] at h
      exact List.mem_cons_of_mem _ (ih seen h)
    · rw [if_neg hxs] at h
      rcases List.mem_cons.mp h with h | h
      · exact h ▸ List.mem_cons_self _ _
      · exact List.mem_cons_of_mem _ (ih _ h)

lemma sortByDateDesc_perm (rs : List Release) : (sortByDateDesc rs).Perm rs :=
  List.perm_insertionSort _ rs

lemma mem_fetch_from_businesswire_writes (name : String) (cutoff : Int) :
    ∀ (feed : List FeedEntry) (r : Release),
      r ∈ fetch_from_businesswire name cutoff feed → r.summaryWrites = 1 ∧ cutoff ≤ r.date := by
  intro feed
  induction feed with
  | nil => intro r h; simp [fetch_from_businesswire] at h
  | cons e rest ih =>
    intro r h
    rw [fetch_from_businesswire] at h
    split at h
    · exact ih r h
    · split at h
      next hlt => exact ih r h
      next hlt =>
        rcases List.mem_cons.mp h with h | h
        · subst h
          exact ⟨rfl, not_lt.mp hlt⟩
        · exact ih r h

lemma getRecentFilingsAux_props (types : List String) (cutoff : Int)
    (cik name : String) (sub : Submissions) :
    ∀ (forms : List String) (i : Nat) (fs : List Filing),
      getRecentFilingsAux types cutoff cik name sub i forms = .ok fs →
      ∀ f ∈ fs, (∃ day, f.filing_date = .valid day ∧ cutoff ≤ day) ∧ f.summaryWrites = 0 := by
  intro forms
  induction forms with
  | nil =>
    intro i fs h f hf
    rw [getRecentFilingsAux] at h
    injection h with h
    subst h
    exact absurd hf (List.not_mem_nil f)
  | cons ft rest ih =>
    intro i fs h f hf
    rw [getRecentFilingsAux] at h
    split at h
    · exact absurd h (by simp)
    · rename_i ds hds
      split at h
      · split at h
        · exact absurd h (by simp)
        · rename_i day heq
          split at h
          · exact ih (i+1) fs h f hf
          · rename_i hlt
            split at h
            · split at h
              · exact absurd h (by simp)
              · rename_i ciknum hcik
                split at h
                · exact absurd h (by simp)
                · rename_i fs' hrec
                  injection h with h
                  subst h
                  rcases List.mem_cons.mp hf with hf | hf
                  · subst hf
                    refine ⟨?_, rfl⟩
                    cases ds with
                    | invalid raw => exact absurd heq (by simp [strptime])
                    | valid d =>
                      have hd : d = day := by
                        rw [strptime] at heq
                        injection heq
                      exact ⟨d, rfl, hd ▸ not_lt.mp hlt⟩
                  · exact ih (i+1) fs' hrec f hf
            · exact absurd h (by simp)
      · exact ih (i+1) fs h f hf

lemma get_recent_filings_props (subOpt : Option Submissions) (types : List String)
    (cutoff : Int) (cik name : String) (fs : List Filing)
    (h : get_recent_filings subOpt types cutoff cik name = .ok fs) :
    ∀ f ∈ fs, (∃ day, f.filing_date = .valid day ∧ cutoff ≤ day) ∧ f.summaryWrites = 0 := by
  cases subOpt with
  | none =>
    rw [get_recent_filings] at h
    injection h with h
    subst h
    intro f hf
    exact absurd hf (List.not_mem_nil f)
  | some sub => exact getRecentFilingsAux_props types cutoff cik name sub sub.form 0 fs h

lemma enrichArticlesAux_length (oracle : Nat → Except String String) (count : Nat) :
    ∀ (l : List Article) (j : Nat), (enrichArticlesAux oracle count j l).length = l.length := by
  intro l
  induction l with
  | nil => intro j; rfl
  | cons a rest ih =>
    intro j
    rw [enrichArticlesAux]
    by_cases hj : j < count
    · rw [if_pos hj]
      simp [ih (j+1)]
    · rw [if_neg hj]
      simp [ih (j+1)]

lemma enrichArticlesAux_getElem (oracle : Nat → Except String String) (count : Nat) :
    ∀ (l : List Article) (j i : Nat),
      (enrichArticlesAux oracle count j l)[i]? =
        (l[i]?).map (fun a => if j + i < count then enrichOne (oracle (j + i)) a else a) := by
  intro l
  induction l with
  | nil => intro j i; simp [enrichArticlesAux]
  | cons a rest ih =>
    intro j i
    rw [enrichArticlesAux]
    by_cases hj : j < count
    · rw [if_pos hj]
      cases i with
      | zero => simp [hj]
      | succ i =>
        have hadd : j + 1 + i = j + (i + 1) := by omega
        simp only [List.getElem?_cons_succ, ih (j+1) i, hadd]
    · rw [if_neg hj]
      cases i with
      | zero => simp [hj]
      | succ i =>
        have hadd : j + 1 + i = j + (i + 1) := by omega
        simp only [List.getElem?_cons_succ, ih (j+1) i, hadd]

lemma mem_enrichArticlesAux (oracle : Nat → Except String String) (count : Nat) :
    ∀ (l : List Article) (j : Nat) (a : Article), a ∈ enrichArticlesAux oracle count j l →
      ∃ b ∈ l, a = b ∨ ∃ k, a = enrichOne (oracle k) b := by
  intro l
  induction l with
  | nil => intro j a h; exact absurd h (List.not_mem_nil a)
  | cons x rest ih =>
    intro j a h
    rw [enrichArticlesAux] at h
    by_cases hj : j < count
    · rw [if_pos hj] at h
      rcases List.mem_cons.mp h with h | h
      · exact ⟨x, List.mem_cons_self _ _, Or.inr ⟨j, h⟩⟩
      · obtain ⟨b, hb, hab⟩ := ih (j+1) a h
        exact ⟨b, List.mem_cons_of_mem _ hb, hab⟩
    · rw [if_neg hj] at h
      rcases List.mem_cons.mp h with h | h
      · exact ⟨x, List.mem_cons_self _ _, Or.inl h⟩
      · obtain ⟨b, hb, hab⟩ := ih (j+1) a h
        exact ⟨b, List.mem_cons_of_mem _ hb, hab⟩

lemma enrichOne_summaryWrites (completion : Except String String) (a : Article) :
    (enrichOne completion a).summaryWrites = a.summaryWrites + 1 := by
  rw [enrichOne]
  by_cases hc : (pyStrip (a.description ++ "\n\n" ++ a.content)).data.isEmpty
  · simp [hc]
  · simp [hc]

lemma mem_get_recent_articles_writes (apiKey : Option String)
    (respOpt : Option NewsResponse) (name : String) (a : Article)
    (h : a ∈ get_recent_articles apiKey respOpt name) : a.summaryWrites = 0 := by
  cases apiKey with
  | none => exact absurd h (List.not_mem_nil a)
  | some k =>
    cases respOpt with
    | none => exact absurd h (List.not_mem_nil a)
    | some data =>
      rw [get_recent_articles] at h
      by_cases hs : data.status != "ok"
      · rw [if_pos hs] at h
        exact absurd h (List.not_mem_nil a)
      · rw [if_neg hs] at h
        obtain ⟨b, _, hb⟩ := List.mem_map.mp h
        rw [← hb]
        rfl

/-- C1: the spec claims a failure in one source's adapter or enrichment step
never aborts the other sources and `run` always returns a complete Run
Result.  The code violates this: `ServiceNowMonitor.run` wraps no source in
`try/except`, and `get_recent_filings` does not guard `strptime`, so a single
unparseable `filingDate` string in the SEC response raises `ValueError` out
of `run` — the press-release and news phases never execute and no Run Result
is produced.  This theorem evaluates the embedded `run` at that failing
input. -/
theorem spec_c1_run_aborts_on_adapter_failure :
    run {} false { now := 1000, submissions := some subC1 } none none none none
      = .error (.valueError "bad-date") := by decide

/-- C4: the list returned by `get_recent_press_releases` is sorted by date
descending — every adjacent pair satisfies `r_i.date >= r_{i+1}.date`
(stated as `List.Chain'`). -/
theorem spec_c4_releases_sorted_desc :
    ∀ (name : String) (feed : List FeedEntry) (cutoff : Int),
      List.Chain' (fun a b : Release => b.date ≤ a.date)
        (get_recent_press_releases name feed cutoff) := by
  intro name feed cutoff
  exact List.Pairwise.chain'
    (List.sorted_insertionSort (fun a b : Release => b.date ≤ a.date)
      (dedupByTitle (fetch_from_businesswire name cutoff feed)))

/-- C6: `summarize` sends the content unmodified when it has at most 50,000
characters, and sends exactly the first 50,000 characters with the visible
truncation marker appended when longer. -/
theorem spec_c6_truncation :
    ∀ (completion : Except String String) (content ct cn : String),
      (content.length ≤ 50000 →
        (summarize completion content ct cn).sentContent = content)
    ∧ (50000 < content.length →
        (summarize completion content ct cn).sentContent =
          String.mk (content.data.take 50000) ++ truncMarker) := by
  intro comp c ct cn
  constructor
  · intro h
    have hng : ¬ 50000 < c.length := not_lt.mpr h
    cases comp <;> simp [summarize, truncateContent, hng]
  · intro h
    cases comp <;> simp [summarize, truncateContent, h]

/-- Witness for C6 at a short content (3 chars, sent unmodified) and a long
content (50,001 chars, truncated with the marker). -/
theorem spec_c6_truncation_witness :
    ("abc".length ≤ 50000
      ∧ (summarize (.ok "s") "abc" "general" "ServiceNow").sentContent = "abc")
  ∧ (50000 < (String.mk (List.replicate 50001 'a')).length
      ∧ (summarize (.ok "s") (String.mk (List.replicate 50001 'a')) "general" "ServiceNow").sentContent
          = String.mk ((String.mk (List.replicate 50001 'a')).data.take 50000) ++ truncMarker) := by
  have h1 : "abc".length ≤ 50000 := by decide
  have h2 : 50000 < (String.mk (List.replicate 50001 'a')).length := by
    have he : (String.mk (List.replicate 50001 'a')).length = 50001 := by
      show (List.replicate 50001 'a').length = 50001
      exact List.length_replicate 50001 'a'
    omega
  exact ⟨⟨h1, (spec_c6_truncation (.ok "s") "abc" "general" "ServiceNow").1 h1⟩,
         ⟨h2, (spec_c6_truncation (.ok "s") _ "general" "ServiceNow").2 h2⟩⟩

/-- C7: every exception of the completion call is caught by `summarize` and
converted to the human-readable string `"Error generating summary: ..."`
(the function is total, so nothing is raised); the enrichment loop stores
that string in the record's `summary` field (unless the blank-content
fallback applies) and processes every record independently of other records'
failures: the output has the same length and its `i`-th record depends only
on the `i`-th input record and that record's own completion outcome. -/
theorem spec_c7_summarize_error_handling :
    (∀ (e content ct cn : String),
      (summarize (.error e) content ct cn).summary = "Error generating summary: " ++ e)
  ∧ (∀ (e : String) (a : Article),
      (enrichOne (.error e) a).summary =
        some (if (pyStrip (a.description ++ "\n\n" ++ a.content)).data.isEmpty
              then a.description else "Error generating summary: " ++ e))
  ∧ (∀ (oracle : Nat → Except String String) (count : Nat) (articles : List Article),
      (enrichArticles oracle count articles).length = articles.length)
  ∧ (∀ (oracle : Nat → Except String String) (count : Nat) (articles : List Article) (i : Nat),
      (enrichArticles oracle count articles)[i]? =
        (articles[i]?).map (fun a => if i < count then enrichOne (oracle i) a else a)) := by
  refine ⟨fun e c ct cn => rfl, ?_, ?_, ?_⟩
  · intro e a
    rw [enrichOne]
    by_cases hc : (pyStrip (a.description ++ "\n\n" ++ a.content)).data.isEmpty
    · simp [hc]
    · simp [hc, summarize]
  · intro oracle count articles
    exact enrichArticlesAux_length oracle count articles 0
  · intro oracle count articles i
    simpa using enrichArticlesAux_getElem oracle count articles 0 i

/-- C8: the spec claims malformed upstream data (unparseable dates, missing
parallel-array elements) is skipped per-record without aborting the batch.
The press-release adapter does skip per-entry (third conjunct), but the SEC
filings adapter raises instead: an unparseable `filingDate` aborts the whole
batch losing the valid second record (first conjunct), and a missing
`accessionNumber` element raises `IndexError` (second conjunct). -/
theorem spec_c8_malformed_data :
    (get_recent_filings (some subC8mix) ["10-K", "10-Q", "8-K"] 910
        (formatCik "0001373715") "ServiceNow" = .error (.valueError "not-a-date"))
  ∧ (get_recent_filings (some subC8short) ["10-K", "10-Q", "8-K"] 910
        (formatCik "0001373715") "ServiceNow" = .error .indexError)
  ∧ (fetch_from_businesswire "ServiceNow" 910 feedC8
        = [{ title := "Good entry", date := 995, url := "u1", summary := "s1",
             source := "Business Wire", company := "ServiceNow", category := "general" }]) := by
  refine ⟨by decide, by decide, by decide⟩

/-- C10: a day count of 0 is falsy in `x or default`, so `run` substitutes
the per-source defaults (filings 90, releases 60, articles 30) both for a
universal `days_back = 0` and for any individual zero count, and the CLI
layer turns `--days 0` into an absent `days_back`; a run invoked with
`days_back = 0` behaves exactly like a run with no day arguments at all. -/
theorem spec_c10_zero_days_defaults :
    (∀ fd rd ad, resolveDays (some 0) fd rd ad = (90, 60, 30))
  ∧ (∀ rd ad, (resolveDays none (some 0) rd ad).1 = 90)
  ∧ (∀ fd ad, (resolveDays none fd (some 0) ad).2.1 = 60)
  ∧ (∀ fd rd, (resolveDays none fd rd (some 0)).2.2 = 30)
  ∧ (cliDaysBack none (some 0) = none)
  ∧ (∀ (cfg : MonitorConfig) (son : Bool) (w : World) (fd rd ad : Option Int),
      run cfg son w (some 0) fd rd ad = run cfg son w none none none none) := by
  exact ⟨fun _ _ _ => rfl, fun _ _ => rfl, fun _ _ => rfl, fun _ _ => rfl, rfl,
         fun _ _ _ _ _ _ => rfl⟩

lemma mem_two_strings {n a b : String} (h : n ∈ ([a, b] : List String)) :
    n = a ∨ n = b := by
  rcases List.mem_cons.mp h with h | h
  · exact Or.inl h
  · rcases List.mem_cons.mp h with h | h
    · exact Or.inr h
    · exact absurd h (List.not_mem_nil n)

/-- C5: prompt routing is the keyed map of `_get_prompt_template`: form type
`"8-K"` resolves to the 8-K (current-report) template; a press release whose
`category` is `"earnings"` is routed (via the caller's content-type mapping)
to the earnings template whatever its title; whenever the `EARNING` keyword
matches the normalized content type the earnings template wins — in
particular over the `PRESS`/`RELEASE` keywords; and a content type matching
nothing falls back to `"general"`. -/
theorem spec_c5_prompt_routing :
    (get_prompt_template "8-K" = "8-K")
  ∧ (∀ r : Release, r.category = "earnings" →
      get_prompt_template (releaseContentType r) = "earnings")
  ∧ (∀ ct : String, containsSubstr (normalizeContentType ct) "EARNING" = true →
      get_prompt_template ct = "earnings")
  ∧ (∀ ct : String,
      containsSubstr (normalizeContentType ct) "EARNING" = false →
      containsSubstr (normalizeContentType ct) "PRESS" = false →
      containsSubstr (normalizeContentType ct) "RELEASE" = false →
      normalizeContentType ct ∉ (["10-K", "10_K", "10-Q", "10_Q", "8-K", "8_K"] : List String) →
      get_prompt_template ct = "general") := by
  refine ⟨by decide, ?_, ?_, ?_⟩
  · intro r h
    rw [releaseContentType, if_pos h]
    decide
  · intro ct h
    have h1 : normalizeContentType ct ∉ (["10-K", "10_K"] : List String) := by
      intro hm
      rcases mem_two_strings hm with he | he <;> rw [he] at h <;> exact absurd h (by decide)
    have h2 : normalizeContentType ct ∉ (["10-Q", "10_Q"] : List String) := by
      intro hm
      rcases mem_two_strings hm with he | he <;> rw [he] at h <;> exact absurd h (by decide)
    have h3 : normalizeContentType ct ∉ (["8-K", "8_K"] : List String) := by
      intro hm
      rcases mem_two_strings hm with he | he <;> rw [he] at h <;> exact absurd h (by decide)
    simp only [get_prompt_template]
    rw [if_neg h1, if_neg h2, if_neg h3, if_pos h]
  · intro ct hE hP hR hmem
    have h1 : normalizeContentType ct ∉ (["10-K", "10_K"] : List String) := by
      intro hm
      exact hmem (by rcases mem_two_strings hm with he | he <;> rw [he] <;> decide)
    have h2 : normalizeContentType ct ∉ (["10-Q", "10_Q"] : List String) := by
      intro hm
      exact hmem (by rcases mem_two_strings hm with he | he <;> rw [he] <;> decide)
    have h3 : normalizeContentType ct ∉ (["8-K", "8_K"] : List String) := by
      intro hm
      exact hmem (by rcases mem_two_strings hm with he | he <;> rw [he] <;> decide)
    have h4 : ¬ (containsSubstr (normalizeContentType ct) "EARNING" = true) := by
      rw [hE]; decide
    have h5 : ¬ ((containsSubstr (normalizeContentType ct) "PRESS"
        || containsSubstr (normalizeContentType ct) "RELEASE") = true) := by
      rw [hP, hR]; decide
    simp only [get_prompt_template]
    rw [if_neg h1, if_neg h2, if_neg h3, if_neg h4, if_neg h5]

/-- Witness for C5: an earnings-category release routes to the earnings
template; a content type matching both the earnings and the press-release
keywords routes to earnings; an unmatched content type falls back to
general. -/
theorem spec_c5_prompt_routing_witness :
    get_prompt_template (releaseContentType releaseC9) = "earnings"
  ∧ get_prompt_template "Earnings Press Release" = "earnings"
  ∧ get_prompt_template "news" = "general" :=
  ⟨spec_c5_prompt_routing.2.1 releaseC9 rfl,
   spec_c5_prompt_routing.2.2.1 "Earnings Press Release" (by decide),
   spec_c5_prompt_routing.2.2.2 "news" (by decide) (by decide) (by decide) (by decide)⟩

/-- C2: both date-filtering adapters retain exactly the records dated at or
after `now - d` (the boundary date `now - d` itself is included): every
filing in a successful `get_recent_filings` result parses to a day `>=
now - d`, every Business Wire release satisfies `date >= now - d`; on
filings dated `[T-5, T-40, T-95]` with window 90 the output is exactly the
first two; and records dated exactly at the cutoff are retained by both
adapters. -/
theorem spec_c2_recency_window :
    (∀ (subOpt : Option Submissions) (types : List String) (now d : Int)
        (cik name : String) (fs : List Filing),
        get_recent_filings subOpt types (now - d) cik name = .ok fs →
        ∀ f ∈ fs, ∃ day, f.filing_date = .valid day ∧ now - d ≤ day)
  ∧ (∀ (name : String) (now d : Int) (feed : List FeedEntry),
        ∀ r ∈ fetch_from_businesswire name (now - d) feed, now - d ≤ r.date)
  ∧ ((get_recent_filings (some subC2) ["10-K", "10-Q", "8-K"] (1000 - 90)
        (formatCik "0001373715") "ServiceNow").map (fun fs => fs.map Filing.filing_date)
        = .ok [.valid 995, .valid 960])
  ∧ ((get_recent_filings (some subC2boundary) ["10-K", "10-Q", "8-K"] (1000 - 90)
        (formatCik "0001373715") "ServiceNow").map (fun fs => fs.map Filing.filing_date)
        = .ok [.valid 910])
  ∧ ((fetch_from_businesswire "ServiceNow" (1000 - 90)
        [{ title := "At boundary", published_parsed := some 910, link := "", summary := "" }]).map
          Release.date = [910]) := by
  refine ⟨?_, ?_, by decide, by decide, by decide⟩
  · intro subOpt types now d cik name fs h f hf
    exact (get_recent_filings_props subOpt types (now - d) cik name fs h f hf).1
  · intro name now d feed r hr
    exact (mem_fetch_from_businesswire_writes name (now - d) feed r hr).2

/-- Witness for C2: the general parts applied to the concrete scenario
inputs, with the membership and adapter-result hypotheses discharged by
evaluation. -/
theorem spec_c2_recency_window_witness :
    (∃ day, filingC2.filing_date = DateStr.valid day ∧ (1000 : Int) - 90 ≤ day)
  ∧ ((1000 : Int) - 90 ≤
      (Release.date { title := "At boundary", date := 910, url := "", summary := "",
                      source := "Business Wire", company := "ServiceNow",
                      category := "general" })) :=
  ⟨spec_c2_recency_window.1 (some subC2) ["10-K", "10-Q", "8-K"] 1000 90
      (formatCik "0001373715") "ServiceNow" filingsC2 (by decide) filingC2 (by decide),
   spec_c2_recency_window.2.1 "ServiceNow" 1000 90
      [{ title := "At boundary", published_parsed := some 910, link := "", summary := "" }]
      _ (by decide)⟩

/-- C3: when the merged press-release input (the Business Wire fetch, the
only active source) contains two or more entries with an identical title,
the output of `get_recent_press_releases` contains exactly one entry with
that title, namely the first occurrence encountered; dedup happens on the
merged list before sorting. -/
theorem spec_c3_dedup_by_title :
    ∀ (name : String) (feed : List FeedEntry) (cutoff : Int) (t : String) (r : Release),
      2 ≤ countTitle t (fetch_from_businesswire name cutoff feed) →
      (fetch_from_businesswire name cutoff feed).find? (fun x => x.title == t) = some r →
      countTitle t (get_recent_press_releases name feed cutoff) = 1
        ∧ r ∈ get_recent_press_releases name feed cutoff := by
  intro name feed cutoff t r h2 hfind
  have hperm := sortByDateDesc_perm (dedupByTitle (fetch_from_businesswire name cutoff feed))
  rw [get_recent_press_releases]
  constructor
  · have hdedup : countTitle t (dedupByTitle (fetch_from_businesswire name cutoff feed))
        = min 1 (countTitle t (fetch_from_businesswire name cutoff feed)) := by
      have h := dedupByTitleAux_countTitle t (fetch_from_businesswire name cutoff feed) []
      rw [dedupByTitle, h, if_neg (List.not_mem_nil t)]
    have hsort : countTitle t (sortByDateDesc (dedupByTitle (fetch_from_businesswire name cutoff feed)))
        = countTitle t (dedupByTitle (fetch_from_businesswire name cutoff feed)) := by
      rw [countTitle, countTitle]
      exact hperm.countP_eq _
    rw [hsort, hdedup, Nat.min_eq_left (by omega)]
  · have hmem : r ∈ dedupByTitle (fetch_from_businesswire name cutoff feed) := by
      rw [dedupByTitle]
      exact dedupByTitleAux_find_mem t r (fetch_from_businesswire name cutoff feed) []
        (List.not_mem_nil t) hfind
    exact hperm.mem_iff.mpr hmem

/-- Witness for C3: a feed with two entries titled "ServiceNow Announces X"
yields exactly one output record with that title — its first occurrence. -/
theorem spec_c3_dedup_by_title_witness :
    countTitle "ServiceNow Announces X"
        (get_recent_press_releases "ServiceNow" feedC3 900) = 1
  ∧ releaseC3 ∈ get_recent_press_releases "ServiceNow" feedC3 900 :=
  spec_c3_dedup_by_title "ServiceNow" feedC3 900 "ServiceNow Announces X" releaseC3
    (by decide) (by decide)

/-- C9: within one pipeline run the `summary` field of every record reachable
in a phase's output has been assigned at most once (`summaryWrites <= 1`), so
a successful value is never overwritten.  Filings carry no summary at all
(writes = 0; the enrichment that would add one raises before assigning);
press releases receive exactly the one creation-time assignment from the
feed's summary text (the enrichment that would overwrite it raises before
its first assignment); articles receive at most the single enrichment-loop
assignment. -/
theorem spec_c9_summary_written_once :
    ∀ (cfg : MonitorConfig) (son : Bool) (subOpt : Option Submissions)
      (feed : List FeedEntry) (respOpt : Option NewsResponse)
      (oracle : Nat → Except String String) (cutF cutR : Int),
      (∀ fs, fetch_sec_filings cfg son subOpt cutF = .ok fs →
        ∀ f ∈ fs, f.summaryWrites ≤ 1)
    ∧ (∀ rs, fetch_press_releases cfg son feed cutR = .ok rs →
        ∀ r ∈ rs, r.summaryWrites ≤ 1)
    ∧ (∀ a ∈ fetch_news_articles cfg son oracle respOpt, a.summaryWrites ≤ 1) := by
  intro cfg son subOpt feed respOpt oracle cutF cutR
  refine ⟨?_, ?_, ?_⟩
  · intro fs h f hf
    rw [fetch_sec_filings] at h
    split at h
    · split at h
      · exact absurd h (by simp)
      · rename_i filings hg
        split at h
        · exact absurd h (by simp)
        · injection h with h
          subst h
          have := (get_recent_filings_props _ _ _ _ _ _ hg f hf).2
          omega
    · injection h with h
      subst h
      exact absurd hf (List.not_mem_nil f)
  · intro rs h r hr
    simp only [fetch_press_releases] at h
    split at h
    · split at h
      · exact absurd h (by simp)
      · injection h with h
        subst h
        rw [get_recent_press_releases] at hr
        have hmem : r ∈ dedupByTitle (fetch_from_businesswire cfg.companyName cutR feed) :=
          (sortByDateDesc_perm _).mem_iff.mp hr
        have hmem2 : r ∈ fetch_from_businesswire cfg.companyName cutR feed := by
          rw [dedupByTitle] at hmem
          exact dedupByTitleAux_subset r _ [] hmem
        have := (mem_fetch_from_businesswire_writes _ _ _ r hmem2).1
        omega
    · injection h with h
      subst h
      exact absurd hr (List.not_mem_nil r)
  · intro a ha
    simp only [fetch_news_articles] at ha
    split at ha
    · split at ha
      · exact absurd ha (List.not_mem_nil a)
      · split at ha
        · rw [enrichArticles] at ha
          obtain ⟨b, hb, hab⟩ := mem_enrichArticlesAux oracle cfg.summarizeArticlesCount _ 0 a ha
          have hw : b.summaryWrites = 0 := mem_get_recent_articles_writes _ _ _ b hb
          rcases hab with rfl | ⟨k, rfl⟩
          · omega
          · rw [enrichOne_summaryWrites]
            omega
        · have hw : a.summaryWrites = 0 := mem_get_recent_articles_writes _ _ _ a ha
          omega
    · exact absurd ha (List.not_mem_nil a)

/-- Witness for C9: the three phase bounds applied to concrete runs — a
filings phase output, a press-release phase output carrying its feed summary,
and an enriched news article. -/
theorem spec_c9_summary_written_once_witness :
    filingC2.summaryWrites ≤ 1
  ∧ releaseC9.summaryWrites ≤ 1
  ∧ articleC9.summaryWrites ≤ 1 :=
  ⟨(spec_c9_summary_written_once {} false (some subC2) [] none (fun _ => .ok "") 910 910).1
      filingsC2 (by decide) filingC2 (by decide),
   (spec_c9_summary_written_once {} false none feedC9 none (fun _ => .ok "") 910 910).2.1
      [releaseC9] (by decide) releaseC9 (by decide),
   (spec_c9_summary_written_once cfgC9 true none [] (some respC9) (fun _ => .ok "sum") 910 910).2.2
      articleC9 (by decide)⟩
